import Mathlib

/-!
Verification of the register-level behaviour of the Xilinx PCIe endpoint
platform driver (xlnx_pcie_platform_drv.c).

The driver manipulates a memory-mapped block of 32-bit registers through
ioread32/iowrite32.  We model the register block as a map from byte
offsets to natural numbers; reads and writes truncate to 32 bits exactly
as the hardware interface does.  The user-facing entry points
(ioctl cases, read, write, lseek, the interrupt handlers, and the
open-time reset) are embedded as explicit state transformers; the
data-path entry points additionally record a trace of the externally
visible events (register accesses, buffer allocation and release, user
copies, completion waits and signals) so that ordering and resource
properties can be stated.
-/

/-- The register block: a map from byte offset to stored word. -/
abbrev Regs := Nat → Nat

/-- reg_read (line 219): ioread32 returns a 32-bit word. -/
def reg_read (s : Regs) (reg : Nat) : Nat := s reg % 2 ^ 32

/-- reg_write (line 224): iowrite32 stores a 32-bit word. -/
def reg_write (s : Regs) (reg value : Nat) : Regs :=
  fun r => if r = reg then value % 2 ^ 32 else s r

/- Register byte offsets (lines 53-79). -/

def PCIEP_READ_BUFFER_READY : Nat := 0x00
def PCIEP_READ_BUFFER_ADDR : Nat := 0x04
def PCIEP_READ_BUFFER_OFFSET : Nat := 0x08
def PCIEP_READ_BUFFER_SIZE : Nat := 0x0c
def PCIEP_WRITE_BUFFER_READY : Nat := 0x10
def PCIEP_WRITE_BUFFER_ADDR : Nat := 0x14
def PCIEP_WRITE_BUFFER_OFFSET : Nat := 0x18
def PCIEP_WRITE_BUFFER_SIZE : Nat := 0x1c
def PCIEP_READ_TRANSFER_DONE : Nat := 0x20
def PCIEP_WRITE_TRANSFER_DONE : Nat := 0x24
def PCIRC_READ_FILE_LENGTH : Nat := 0x40
def PCIRC_READ_BUFFER_TRANSFER_DONE : Nat := 0x44
def PCIRC_RAW_RESOLUTION : Nat := 0x54
def PCIRC_READ_BUFFER_TRANSFER_DONE_INTR : Nat := 0x68
def PCIRC_WRITE_BUFFER_TRANSFER_DONE_INTR : Nat := 0x6c

/- Flag and mask constants (lines 81-151). -/

def PCIEP_CLR_REG : Nat := 0x0
def SET_BUFFER_RDY : Nat := 0x1
def WIDTH_SHIFT : Nat := 0x0
def WIDTH_MASK : Nat := 0xFFFF
def HEIGHT_SHIFT : Nat := 16
def HEIGHT_MASK : Nat := 0xFFFF
def READ_BUF_HIGH_OFFSET : Nat := 0xFFFF0000
def WRITE_BUF_HIGH_OFFSET : Nat := 0xFFFF0000

/-- Bitwise complement on an unsigned 32-bit quantity, as the C operator
tilde produces on an unsigned int operand. -/
def compl32 (m : Nat) : Nat := 0xFFFFFFFF ^^^ m

/-- Linux error numbers used by the driver. -/
def EINVAL : Int := 22

def ENOMEM : Int := 12

/-- Resolution record (lines 214-217). -/
structure resolution where
  width : Nat
  height : Nat
  deriving DecidableEq

/-- GET_FILE_LENGTH ioctl case (lines 320-325): reads the low word at
PCIRC_READ_FILE_LENGTH (0x40) first and the high word at
PCIRC_READ_FILE_LENGTH - 4 (0x3c), and returns the 64-bit value
value OR (value1 shifted left by 32) that is copied to the caller. -/
def get_file_length (s : Regs) : Nat :=
  let value := reg_read s PCIRC_READ_FILE_LENGTH
  let value1 := reg_read s (PCIRC_READ_FILE_LENGTH - 4)
  value ||| value1 <<< 32

/-- GET_RESOLUTION ioctl case (lines 356-361). -/
def get_resolution (s : Regs) : resolution :=
  let value := reg_read s PCIRC_RAW_RESOLUTION
  { width := value >>> WIDTH_SHIFT &&& WIDTH_MASK
    height := value >>> HEIGHT_SHIFT &&& HEIGHT_MASK }

/-- SET_READ_OFFSET ioctl case (lines 369-376).  value1 is the u64 copied
from user space (modelled as an arbitrary natural truncated to 64 bits):
the driver writes it to the low offset register (truncated to 32 bits by
iowrite32), then replaces the high 16 bits of the read-ready register by
the expression (value1 shifted right by 16) AND READ_BUF_HIGH_OFFSET. -/
def set_read_offset (s : Regs) (value1 : Nat) : Regs :=
  let v1 := value1 % 2 ^ 64
  let s1 := reg_write s PCIEP_READ_BUFFER_OFFSET v1
  let value := reg_read s1 PCIEP_READ_BUFFER_READY
  let value := value &&& compl32 READ_BUF_HIGH_OFFSET
  let value := value ||| (v1 >>> 16 &&& READ_BUF_HIGH_OFFSET)
  reg_write s1 PCIEP_READ_BUFFER_READY value

/-- pciep_driver_file_lseek (lines 518-529).  offset is the 64-bit two's
complement bit pattern of the loff_t argument.  The C code computes
(offset shifted right by 16, an arithmetic shift on the signed value)
AND READ_BUF_HIGH_OFFSET; the bits the mask keeps are bits 32-47 of the
64-bit pattern, which the arithmetic and the logical shift agree on, so
the embedding uses the logical shift on the bit pattern.  The low
register write truncates to 32 bits exactly as iowrite32 does on the
signed value's pattern.  The function returns the offset argument. -/
def pciep_driver_file_lseek (s : Regs) (offset : Nat) : Regs × Nat :=
  let off := offset % 2 ^ 64
  let s1 := reg_write s PCIEP_READ_BUFFER_OFFSET off
  let value := reg_read s1 PCIEP_READ_BUFFER_READY
  let value := value &&& compl32 READ_BUF_HIGH_OFFSET
  let value := value ||| (off >>> 16 &&& READ_BUF_HIGH_OFFSET)
  (reg_write s1 PCIEP_READ_BUFFER_READY value, off)

/-- pcie_reset_all (lines 231-247), register effect of the non-null path:
writes PCIEP_CLR_REG (zero) to both transfer-done registers, the read
offset register, both size registers and both ready registers.  The
write-direction offset register (0x18) is not among the registers it
clears. -/
def pcie_reset_all (s : Regs) : Regs :=
  let s1 := reg_write s PCIEP_READ_TRANSFER_DONE PCIEP_CLR_REG
  let s2 := reg_write s1 PCIEP_WRITE_TRANSFER_DONE PCIEP_CLR_REG
  let s3 := reg_write s2 PCIEP_READ_BUFFER_OFFSET PCIEP_CLR_REG
  let s4 := reg_write s3 PCIEP_READ_BUFFER_SIZE PCIEP_CLR_REG
  let s5 := reg_write s4 PCIEP_WRITE_BUFFER_SIZE PCIEP_CLR_REG
  let s6 := reg_write s5 PCIEP_READ_BUFFER_READY PCIEP_CLR_REG
  reg_write s6 PCIEP_WRITE_BUFFER_READY PCIEP_CLR_REG

/-- pciep_driver_file_open (lines 255-267): sets the advisory is_open
flag (not register state), calls pcie_reset_all, returns status 0. -/
def pciep_driver_file_open (s : Regs) : Regs × Int :=
  (pcie_reset_all s, 0)

/- Helper lemmas about the register model. -/

theorem reg_read_write_same (s : Regs) (r v : Nat) :
    reg_read (reg_write s r v) r = v % 2 ^ 32 := by
  simp [reg_read, reg_write, Nat.mod_mod_of_dvd]

theorem reg_read_write_ne (s : Regs) (r r' v : Nat) (h : r ≠ r') :
    reg_read (reg_write s r' v) r = reg_read s r := by
  simp [reg_read, reg_write, h]

theorem reg_write_ne_apply (s : Regs) (r r' v : Nat) (h : r ≠ r') :
    reg_write s r' v r = s r := by
  simp [reg_write, h]

/-!
Trace model for the data-path entry points.  Each externally visible
action of pciep_driver_file_read, pciep_driver_file_write and the two
completion interrupt handlers is recorded as an event, in program
order.  The direction flag is false for the read (outbound) direction
and true for the write (inbound) direction.
-/

/-- Externally visible events of a data-path execution. -/
inductive Ev where
  | regw (reg val : Nat)
  | regr (reg : Nat)
  | allocBuf (dir : Bool) (ok : Bool)
  | freeBuf (dir : Bool)
  | copyToUser (ret : Nat)
  | copyFromUser (ret : Nat)
  | waitCompletion (dir : Bool)
  | completeSignal (dir : Bool)
  deriving DecidableEq

/-- A machine: the register block together with the event trace emitted
so far, in program order. -/
structure Mach where
  regs : Regs
  trace : List Ev

/-- Emit a non-register event. -/
def emit (m : Mach) (e : Ev) : Mach := ⟨m.regs, m.trace ++ [e]⟩

/-- Register write: updates the block and records the stored word. -/
def wr (m : Mach) (r v : Nat) : Mach :=
  ⟨reg_write m.regs r v, m.trace ++ [Ev.regw r (v % 2 ^ 32)]⟩

/-- Register read: records the access and returns the word. -/
def rd (m : Mach) (r : Nat) : Mach × Nat :=
  (⟨m.regs, m.trace ++ [Ev.regr r]⟩, reg_read m.regs r)

/-- pciep_driver_file_read (lines 428-465).  count is the size_t byte
count (the C test count <= 0 on the unsigned size_t holds exactly when
count is zero); allocOk abstracts success of dma_alloc_coherent,
physAddr the device-visible address it hands back, and copyRet the
value copy_to_user returns (bytes left uncopied, zero on success).
Returns the final machine and the function's return value. -/
def pciep_driver_file_read (s : Regs) (count : Nat) (allocOk : Bool)
    (physAddr : Nat) (copyRet : Nat) : Mach × Int :=
  let m0 : Mach := ⟨s, []⟩
  if count = 0 then (m0, -EINVAL)
  else if allocOk = false then (emit m0 (Ev.allocBuf false false), -ENOMEM)
  else
    let m1 := emit m0 (Ev.allocBuf false true)
    let m2 := wr m1 PCIEP_READ_BUFFER_ADDR physAddr
    let m3 := wr m2 PCIEP_READ_BUFFER_SIZE count
    let p := rd m3 PCIEP_READ_BUFFER_READY
    let value := p.2 ||| SET_BUFFER_RDY
    let m5 := wr p.1 PCIEP_READ_BUFFER_READY value
    let m6 := emit m5 (Ev.waitCompletion false)
    let m7 := emit m6 (Ev.copyToUser copyRet)
    let m8 := emit m7 (Ev.freeBuf false)
    (m8, Int.ofNat copyRet)

/-- pciep_driver_file_write (lines 475-515).  Parameters as for the read
path, with copyRet the value copy_from_user returns.  On a non-zero
copyRet the code jumps to the out label, frees the buffer and returns
copyRet without touching any register; otherwise it announces the
buffer, waits, frees and returns the (zero) copy result. -/
def pciep_driver_file_write (s : Regs) (count : Nat) (allocOk : Bool)
    (physAddr : Nat) (copyRet : Nat) : Mach × Int :=
  let m0 : Mach := ⟨s, []⟩
  if count = 0 then (m0, -EINVAL)
  else if allocOk = false then (emit m0 (Ev.allocBuf true false), -ENOMEM)
  else
    let m1 := emit m0 (Ev.allocBuf true true)
    let m2 := emit m1 (Ev.copyFromUser copyRet)
    if copyRet ≠ 0 then
      (emit m2 (Ev.freeBuf true), Int.ofNat copyRet)
    else
      let m3 := wr m2 PCIEP_WRITE_BUFFER_ADDR physAddr
      let m4 := wr m3 PCIEP_WRITE_BUFFER_SIZE count
      let p := rd m4 PCIEP_WRITE_BUFFER_READY
      let value := p.2 ||| SET_BUFFER_RDY
      let m6 := wr p.1 PCIEP_WRITE_BUFFER_READY value
      let m7 := emit m6 (Ev.waitCompletion true)
      (emit m7 (Ev.freeBuf true), Int.ofNat copyRet)

/-- xilinx_pciep_read_irq_handler (lines 550-562): reads the read-ready
register, clears the ready bit, writes it back, releases the read
completion, then reads the interrupt acknowledge word. -/
def xilinx_pciep_read_irq_handler (s : Regs) : Mach :=
  let m0 : Mach := ⟨s, []⟩
  let p := rd m0 PCIEP_READ_BUFFER_READY
  let value := p.2 &&& compl32 SET_BUFFER_RDY
  let m2 := wr p.1 PCIEP_READ_BUFFER_READY value
  let m3 := emit m2 (Ev.completeSignal false)
  (rd m3 PCIRC_READ_BUFFER_TRANSFER_DONE_INTR).1

/-- xilinx_pciep_write_irq_handler (lines 571-584): the same handshake
on the write-direction registers and completion. -/
def xilinx_pciep_write_irq_handler (s : Regs) : Mach :=
  let m0 : Mach := ⟨s, []⟩
  let p := rd m0 PCIEP_WRITE_BUFFER_READY
  let value := p.2 &&& compl32 SET_BUFFER_RDY
  let m2 := wr p.1 PCIEP_WRITE_BUFFER_READY value
  let m3 := emit m2 (Ev.completeSignal true)
  (rd m3 PCIRC_WRITE_BUFFER_TRANSFER_DONE_INTR).1

/- Trace predicates and checkers. -/

/-- True when the event is a write to register r. -/
def writesReg (e : Ev) (r : Nat) : Bool :=
  match e with
  | Ev.regw r2 _ => r2 == r
  | _ => false

/-- True when the event writes register r with bit 0 set. -/
def setsReady (e : Ev) (r : Nat) : Bool :=
  match e with
  | Ev.regw r2 v => r2 == r && v.testBit 0
  | _ => false

/-- True when the event writes register r with bit 0 clear. -/
def clearsReady (e : Ev) (r : Nat) : Bool :=
  match e with
  | Ev.regw r2 v => r2 == r && !v.testBit 0
  | _ => false

/-- True when the event is a completion signal. -/
def isSignal (e : Ev) : Bool :=
  match e with
  | Ev.completeSignal _ => true
  | _ => false

/-- True when the event is a register access. -/
def isRegEv (e : Ev) : Bool :=
  match e with
  | Ev.regw _ _ => true
  | Ev.regr _ => true
  | _ => false

/-- True when the event releases the direction's buffer. -/
def isFreeBuf (e : Ev) (d : Bool) : Bool :=
  match e with
  | Ev.freeBuf d2 => d2 == d
  | _ => false

/-- Checker for the announce ordering: scanning the trace with flags
recording whether a write to the address and to the size register has
been seen, every write that sets bit 0 of the ready register rdy must
come after both. -/
def announceOrderOk (rdy addrReg sizeReg : Nat) :
    List Ev → Bool → Bool → Bool
  | [], _, _ => true
  | e :: rest, seenA, seenS =>
    (!setsReady e rdy || (seenA && seenS)) &&
      announceOrderOk rdy addrReg sizeReg rest
        (seenA || writesReg e addrReg) (seenS || writesReg e sizeReg)

/-- Checker for the completion ordering: every completion signal in the
trace must come strictly after a write that clears bit 0 of the ready
register rdy. -/
def signalAfterClear (rdy : Nat) : List Ev → Bool → Bool
  | [], _ => true
  | e :: rest, seen =>
    (!isSignal e || seen) && signalAfterClear rdy rest (seen || clearsReady e rdy)

/- Arithmetic helper lemmas. -/

theorem testBit_low_mask (i : Nat) (h : 16 ≤ i) :
    Nat.testBit 0xFFFF i = false :=
  Nat.testBit_lt_two_pow
    (lt_of_lt_of_le (by norm_num) (Nat.pow_le_pow_right (by norm_num) h))

theorem testBit_low_mask_true : ∀ i, i < 16 → Nat.testBit 0xFFFF i = true := by
  decide

theorem testBit_high_mask_true :
    ∀ i, i < 32 → 16 ≤ i → Nat.testBit 0xFFFF0000 i = true := by
  decide

theorem testBit_high_mask_false : ∀ i, i < 16 → Nat.testBit 0xFFFF0000 i = false := by
  decide

theorem testBit_of_lt_32 {a : Nat} (ha : a < 2 ^ 32) {i : Nat} (h : 32 ≤ i) :
    a.testBit i = false :=
  Nat.testBit_lt_two_pow
    (lt_of_lt_of_le ha (Nat.pow_le_pow_right (by norm_num) h))

theorem lor_shiftLeft_mod (a b : Nat) (ha : a < 2 ^ 32) :
    (a ||| b <<< 32) % 2 ^ 32 = a := by
  apply Nat.eq_of_testBit_eq
  intro i
  rw [Nat.testBit_mod_two_pow, Nat.testBit_or, Nat.testBit_shiftLeft]
  by_cases h : i < 32
  · have h2 : ¬ (i ≥ 32) := by omega
    simp [h, h2]
  · have h2 : a.testBit i = false := testBit_of_lt_32 ha (by omega)
    simp [h, h2]

theorem lor_shiftLeft_shiftRight (a b : Nat) (ha : a < 2 ^ 32) :
    (a ||| b <<< 32) >>> 32 = b := by
  apply Nat.eq_of_testBit_eq
  intro j
  rw [Nat.testBit_shiftRight, Nat.testBit_or, Nat.testBit_shiftLeft]
  have h1 : a.testBit (32 + j) = false := testBit_of_lt_32 ha (by omega)
  have h2 : 32 + j - 32 = j := by omega
  simp [h1, h2, Nat.le_add_right]

theorem compl32_high_offset : compl32 READ_BUF_HIGH_OFFSET = 0xFFFF := by decide

theorem compl32_rdy : compl32 SET_BUFFER_RDY = 0xFFFFFFFE := by decide

/- Helper lemmas shared by the offset-setting claims: the register-level
effect of set_read_offset. -/

theorem set_read_offset_offset_reg (s : Regs) (o : Nat) :
    reg_read (set_read_offset s o) PCIEP_READ_BUFFER_OFFSET = o % 2 ^ 32 := by
  rw [set_read_offset]
  rw [reg_read_write_ne _ _ _ _ (by decide)]
  rw [reg_read_write_same]
  exact Nat.mod_mod_of_dvd o (by norm_num)

theorem set_read_offset_ready_reg (s : Regs) (o : Nat) :
    reg_read (set_read_offset s o) PCIEP_READ_BUFFER_READY =
      (reg_read s PCIEP_READ_BUFFER_READY &&& 0xFFFF) |||
        (o % 2 ^ 64) >>> 16 &&& 0xFFFF0000 := by
  rw [set_read_offset, compl32_high_offset]
  rw [reg_read_write_same]
  rw [reg_read_write_ne _ _ _ _ (by decide)]
  apply Nat.mod_eq_of_lt
  apply Nat.or_lt_two_pow
  · exact Nat.and_lt_two_pow _ (by decide)
  · exact Nat.and_lt_two_pow _ (by decide)

theorem set_read_offset_frame (s : Regs) (o r : Nat)
    (h1 : r ≠ PCIEP_READ_BUFFER_OFFSET) (h2 : r ≠ PCIEP_READ_BUFFER_READY) :
    set_read_offset s o r = s r := by
  rw [set_read_offset]
  rw [reg_write_ne_apply _ _ _ _ h2, reg_write_ne_apply _ _ _ _ h1]

theorem set_read_offset_low_bits (s : Regs) (o i : Nat) (h : i < 16) :
    Nat.testBit (reg_read (set_read_offset s o) PCIEP_READ_BUFFER_READY) i =
      Nat.testBit (reg_read s PCIEP_READ_BUFFER_READY) i := by
  rw [set_read_offset_ready_reg, Nat.testBit_or, Nat.testBit_and, Nat.testBit_and]
  rw [testBit_low_mask_true i h, testBit_high_mask_false i h]
  simp

theorem set_read_offset_high_bits (s : Regs) (o i : Nat) (h1 : 16 ≤ i) (h2 : i < 32) :
    Nat.testBit (reg_read (set_read_offset s o) PCIEP_READ_BUFFER_READY) i =
      Nat.testBit (o % 2 ^ 64) (i + 16) := by
  rw [set_read_offset_ready_reg, Nat.testBit_or, Nat.testBit_and, Nat.testBit_and]
  rw [testBit_low_mask i h1, testBit_high_mask_true i h2 h1, Nat.testBit_shiftRight]
  rw [Nat.add_comm 16 i]
  simp

/- Helper lemmas about the ready-bit values the data paths store. -/

theorem clear_val_bit0 (x : Nat) :
    Nat.testBit ((x &&& compl32 SET_BUFFER_RDY) % 2 ^ 32) 0 = false := by
  rw [Nat.testBit_mod_two_pow, Nat.testBit_and]
  have h : Nat.testBit (compl32 SET_BUFFER_RDY) 0 = false := by decide
  simp [h]

theorem compl32_rdy_testBit : ∀ i, i < 32 → i ≠ 0 →
    Nat.testBit 0xFFFFFFFE i = true := by
  decide

theorem clear_keeps_other_bits (x i : Nat) (hi : i ≠ 0) (hx : x < 2 ^ 32) :
    Nat.testBit (x &&& compl32 SET_BUFFER_RDY) i = Nat.testBit x i := by
  rw [compl32_rdy, Nat.testBit_and]
  by_cases h32 : i < 32
  · rw [compl32_rdy_testBit i h32 hi]
    simp
  · have h1 : Nat.testBit x i = false := testBit_of_lt_32 hx (by omega)
    have h2 : Nat.testBit (0xFFFFFFFE &&& x) i = false :=
      testBit_of_lt_32 (Nat.and_lt_two_pow _ hx) (by omega)
    rw [Nat.and_comm] at h2
    rw [Nat.testBit_and] at h2
    rw [h1]
    simp

/- Trace-shape lemmas for the data-path entry points. -/

theorem read_trace_eq (s : Regs) (count pa cr : Nat) (h : count ≠ 0) :
    (pciep_driver_file_read s count true pa cr).1.trace =
      [Ev.allocBuf false true,
       Ev.regw PCIEP_READ_BUFFER_ADDR (pa % 2 ^ 32),
       Ev.regw PCIEP_READ_BUFFER_SIZE (count % 2 ^ 32),
       Ev.regr PCIEP_READ_BUFFER_READY,
       Ev.regw PCIEP_READ_BUFFER_READY
         ((reg_read s PCIEP_READ_BUFFER_READY ||| SET_BUFFER_RDY) % 2 ^ 32),
       Ev.waitCompletion false,
       Ev.copyToUser cr,
       Ev.freeBuf false] := by
  have e1 : reg_read (reg_write (reg_write s PCIEP_READ_BUFFER_ADDR pa)
      PCIEP_READ_BUFFER_SIZE count) PCIEP_READ_BUFFER_READY =
      reg_read s PCIEP_READ_BUFFER_READY := by
    rw [reg_read_write_ne _ _ _ _ (by decide), reg_read_write_ne _ _ _ _ (by decide)]
  simp [pciep_driver_file_read, h, wr, rd, emit, e1]

theorem write_trace_eq_ok (s : Regs) (count pa : Nat) (h : count ≠ 0) :
    (pciep_driver_file_write s count true pa 0).1.trace =
      [Ev.allocBuf true true,
       Ev.copyFromUser 0,
       Ev.regw PCIEP_WRITE_BUFFER_ADDR (pa % 2 ^ 32),
       Ev.regw PCIEP_WRITE_BUFFER_SIZE (count % 2 ^ 32),
       Ev.regr PCIEP_WRITE_BUFFER_READY,
       Ev.regw PCIEP_WRITE_BUFFER_READY
         ((reg_read s PCIEP_WRITE_BUFFER_READY ||| SET_BUFFER_RDY) % 2 ^ 32),
       Ev.waitCompletion true,
       Ev.freeBuf true] := by
  have e1 : reg_read (reg_write (reg_write s PCIEP_WRITE_BUFFER_ADDR pa)
      PCIEP_WRITE_BUFFER_SIZE count) PCIEP_WRITE_BUFFER_READY =
      reg_read s PCIEP_WRITE_BUFFER_READY := by
    rw [reg_read_write_ne _ _ _ _ (by decide), reg_read_write_ne _ _ _ _ (by decide)]
  simp [pciep_driver_file_write, h, wr, rd, emit, e1]

theorem write_trace_eq_copyfail (s : Regs) (count pa cr : Nat) (h : count ≠ 0)
    (hcr : cr ≠ 0) :
    (pciep_driver_file_write s count true pa cr).1.trace =
      [Ev.allocBuf true true, Ev.copyFromUser cr, Ev.freeBuf true] := by
  simp [pciep_driver_file_write, h, hcr, wr, rd, emit]

theorem read_irq_trace_eq (s : Regs) :
    (xilinx_pciep_read_irq_handler s).trace =
      [Ev.regr PCIEP_READ_BUFFER_READY,
       Ev.regw PCIEP_READ_BUFFER_READY
         ((reg_read s PCIEP_READ_BUFFER_READY &&& compl32 SET_BUFFER_RDY) % 2 ^ 32),
       Ev.completeSignal false,
       Ev.regr PCIRC_READ_BUFFER_TRANSFER_DONE_INTR] := by
  simp [xilinx_pciep_read_irq_handler, wr, rd, emit]

theorem write_irq_trace_eq (s : Regs) :
    (xilinx_pciep_write_irq_handler s).trace =
      [Ev.regr PCIEP_WRITE_BUFFER_READY,
       Ev.regw PCIEP_WRITE_BUFFER_READY
         ((reg_read s PCIEP_WRITE_BUFFER_READY &&& compl32 SET_BUFFER_RDY) % 2 ^ 32),
       Ev.completeSignal true,
       Ev.regr PCIRC_WRITE_BUFFER_TRANSFER_DONE_INTR] := by
  simp [xilinx_pciep_write_irq_handler, wr, rd, emit]

theorem read_irq_regs_eq (s : Regs) :
    (xilinx_pciep_read_irq_handler s).regs =
      reg_write s PCIEP_READ_BUFFER_READY
        (reg_read s PCIEP_READ_BUFFER_READY &&& compl32 SET_BUFFER_RDY) := rfl

theorem write_irq_regs_eq (s : Regs) :
    (xilinx_pciep_write_irq_handler s).regs =
      reg_write s PCIEP_WRITE_BUFFER_READY
        (reg_read s PCIEP_WRITE_BUFFER_READY &&& compl32 SET_BUFFER_RDY) := rfl

/- Claim theorems. -/

/-- C1 counterexample: the GET_FILE_LENGTH ioctl does not assemble the
result from the words at 0x40 and 0x44.  On a register state whose word
at 0x3c is 5 and whose words at 0x40 and 0x44 are 0, the returned value
differs from the low-at-0x40 / high-at-0x44 assembly the claim states. -/
theorem C1_cex :
    get_file_length (fun r => if r = 0x3c then 5 else 0) ≠
      reg_read (fun r => if r = 0x3c then 5 else 0) PCIRC_READ_FILE_LENGTH |||
        reg_read (fun r => if r = 0x3c then 5 else 0)
          PCIRC_READ_BUFFER_TRANSFER_DONE <<< 32 := by
  decide

/-- C1 (amended): the get-file-length operation returns a 64-bit value
assembled from two adjacent 32-bit register words, the low word at
offset 0x40 and the high word at offset 0x3c (PCIRC_READ_FILE_LENGTH -
4, the word immediately below), combined as low OR (high shifted left
by 32); the low 32 bits of the result are the word at 0x40 and the bits
above 32 are the word at 0x3c. -/
theorem C1_file_length_assembly (s : Regs) :
    get_file_length s =
      reg_read s PCIRC_READ_FILE_LENGTH ||| reg_read s 0x3c <<< 32 ∧
    get_file_length s % 2 ^ 32 = reg_read s PCIRC_READ_FILE_LENGTH ∧
    get_file_length s >>> 32 = reg_read s 0x3c := by
  refine ⟨rfl, ?_, ?_⟩
  · exact lor_shiftLeft_mod _ _ (Nat.mod_lt _ (by norm_num))
  · exact lor_shiftLeft_shiftRight _ _ (Nat.mod_lt _ (by norm_num))

/-- C2 counterexample: starting from an all-zero register state,
set-read-offset(0x10000) leaves bit 16 of the read-ready register
clear, and the high 16 bits of that register do not equal
(0x10000 shifted right by 16) AND 0xFFFF = 1, contrary to the claim. -/
theorem C2_cex :
    Nat.testBit
      (reg_read (set_read_offset (fun _ => 0) 0x10000) PCIEP_READ_BUFFER_READY)
      16 = false ∧
    reg_read (set_read_offset (fun _ => 0) 0x10000) PCIEP_READ_BUFFER_READY >>> 16 ≠
      0x10000 >>> 16 &&& 0xFFFF := by
  constructor
  · decide
  · decide

/-- C2 (amended): for every offset o and every prior value of the
read-ready register, set-read-offset(o) writes the low 32 bits of o to
the low offset register and sets bits [16:32) of the read-ready
register to ((o mod 2 to the 64) shifted right by 16) AND 0xFFFF0000 -
that is, bit i of the ready register (16 <= i < 32) becomes bit i + 16
of the 64-bit offset value, so the packed field holds offset bits
[32:48), not bits [16:32) - while the low 16 bits, in particular bit 0
(the ready flag), are left unchanged; consequently for any offset below
2 to the 32, such as 0x1_0000, the high bits are cleared, and bit 16 is
not set. -/
theorem C2_set_read_offset_packing (s : Regs) (o : Nat) :
    reg_read (set_read_offset s o) PCIEP_READ_BUFFER_OFFSET = o % 2 ^ 32 ∧
    reg_read (set_read_offset s o) PCIEP_READ_BUFFER_READY =
      (reg_read s PCIEP_READ_BUFFER_READY &&& 0xFFFF) |||
        (o % 2 ^ 64) >>> 16 &&& 0xFFFF0000 ∧
    (∀ i, 16 ≤ i → i < 32 →
      Nat.testBit (reg_read (set_read_offset s o) PCIEP_READ_BUFFER_READY) i =
        Nat.testBit (o % 2 ^ 64) (i + 16)) ∧
    Nat.testBit (reg_read (set_read_offset s o) PCIEP_READ_BUFFER_READY) 0 =
      Nat.testBit (reg_read s PCIEP_READ_BUFFER_READY) 0 := by
  refine ⟨set_read_offset_offset_reg s o, set_read_offset_ready_reg s o,
    fun i h1 h2 => set_read_offset_high_bits s o i h1 h2,
    set_read_offset_low_bits s o 0 (by decide)⟩

/-- C2 witness: the amended theorem applied at the zero register state
and offset 0x1_0000 with its bounds discharged. -/
theorem C2_witness :
    reg_read (set_read_offset (fun _ => 0) 0x10000) PCIEP_READ_BUFFER_OFFSET =
      0x10000 % 2 ^ 32 ∧
    Nat.testBit
      (reg_read (set_read_offset (fun _ => 0) 0x10000) PCIEP_READ_BUFFER_READY) 16 =
      Nat.testBit (0x10000 % 2 ^ 64) 32 := by
  have h := C2_set_read_offset_packing (fun _ => 0) 0x10000
  exact ⟨h.1, h.2.2.1 16 (by decide) (by decide)⟩

/-- C3 counterexample: the open-time reset does not zero the
write-direction byte-offset register.  Starting from the register state
in which every word is 7, after pciep_driver_file_open the word at
PCIEP_WRITE_BUFFER_OFFSET still reads 7, not 0. -/
theorem C3_cex :
    reg_read (pciep_driver_file_open (fun _ => 7)).1 PCIEP_WRITE_BUFFER_OFFSET ≠
      0 := by
  decide

/-- C3 (amended): after the open-time full reset, from any prior
register state, the ready, transfer-done, and byte-count registers of
both directions and the read-direction byte-offset register all read as
zero; the write-direction byte-offset register is left unchanged. -/
theorem C3_reset_registers (s : Regs) :
    reg_read (pciep_driver_file_open s).1 PCIEP_READ_BUFFER_READY = 0 ∧
    reg_read (pciep_driver_file_open s).1 PCIEP_WRITE_BUFFER_READY = 0 ∧
    reg_read (pciep_driver_file_open s).1 PCIEP_READ_TRANSFER_DONE = 0 ∧
    reg_read (pciep_driver_file_open s).1 PCIEP_WRITE_TRANSFER_DONE = 0 ∧
    reg_read (pciep_driver_file_open s).1 PCIEP_READ_BUFFER_OFFSET = 0 ∧
    reg_read (pciep_driver_file_open s).1 PCIEP_READ_BUFFER_SIZE = 0 ∧
    reg_read (pciep_driver_file_open s).1 PCIEP_WRITE_BUFFER_SIZE = 0 ∧
    (pciep_driver_file_open s).1 PCIEP_WRITE_BUFFER_OFFSET =
      s PCIEP_WRITE_BUFFER_OFFSET := by
  refine ⟨?_, ?_, ?_, ?_, ?_, ?_, ?_, ?_⟩ <;>
    simp [pciep_driver_file_open, pcie_reset_all, reg_read, reg_write,
      PCIEP_READ_BUFFER_READY, PCIEP_WRITE_BUFFER_READY,
      PCIEP_READ_TRANSFER_DONE, PCIEP_WRITE_TRANSFER_DONE,
      PCIEP_READ_BUFFER_OFFSET, PCIEP_READ_BUFFER_SIZE,
      PCIEP_WRITE_BUFFER_SIZE, PCIEP_WRITE_BUFFER_OFFSET, PCIEP_CLR_REG]

/-- C8: for every 32-bit register word w, get-resolution decodes
width as (w shifted right by WIDTH_SHIFT) AND WIDTH_MASK and height as
(w shifted right by HEIGHT_SHIFT) AND HEIGHT_MASK. -/
theorem C8_get_resolution_decode (w : Nat) (hw : w < 2 ^ 32) :
    get_resolution (fun _ => w) =
      { width := w >>> WIDTH_SHIFT &&& WIDTH_MASK
        height := w >>> HEIGHT_SHIFT &&& HEIGHT_MASK } := by
  have h : reg_read (fun _ => w) PCIRC_RAW_RESOLUTION = w := Nat.mod_eq_of_lt hw
  simp [get_resolution, h]

/-- C8 witness: on register word 0x04380780 the decode yields width
0x0780 = 1920 and height 0x0438 = 1080. -/
theorem C8_witness :
    get_resolution (fun _ => 0x04380780) = { width := 1920, height := 1080 } := by
  have h := C8_get_resolution_decode 0x04380780 (by decide)
  rw [h]
  decide

/-- C9: for every 64-bit offset pattern, the positional-seek operation
performs exactly the same register updates as set-read-offset with that
value: the resulting register states are equal; the low offset register
holds the offset truncated to 32 bits, the read-ready register's high
bits hold (offset shifted right by 16) AND READ_BUF_HIGH_OFFSET packed
over its preserved low 16 bits, every bit below 16 of the ready
register is unchanged, and every other register is unchanged. -/
theorem C9_lseek_refines_set_read_offset (s : Regs) (o : Nat) :
    (pciep_driver_file_lseek s o).1 = set_read_offset s o ∧
    reg_read (pciep_driver_file_lseek s o).1 PCIEP_READ_BUFFER_OFFSET =
      o % 2 ^ 32 ∧
    reg_read (pciep_driver_file_lseek s o).1 PCIEP_READ_BUFFER_READY =
      (reg_read s PCIEP_READ_BUFFER_READY &&& 0xFFFF) |||
        (o % 2 ^ 64) >>> 16 &&& 0xFFFF0000 ∧
    (∀ i, i < 16 →
      Nat.testBit (reg_read (pciep_driver_file_lseek s o).1 PCIEP_READ_BUFFER_READY) i =
        Nat.testBit (reg_read s PCIEP_READ_BUFFER_READY) i) ∧
    (∀ r, r ≠ PCIEP_READ_BUFFER_OFFSET → r ≠ PCIEP_READ_BUFFER_READY →
      (pciep_driver_file_lseek s o).1 r = s r) := by
  refine ⟨rfl, set_read_offset_offset_reg s o, set_read_offset_ready_reg s o,
    fun i h => set_read_offset_low_bits s o i h,
    fun r h1 h2 => set_read_offset_frame s o r h1 h2⟩

/-- C9 witness: the refinement applied at a concrete register state and
the concrete 48-bit offset 0x1234_5678_9ABC, with the bit index and
frame hypotheses discharged at bit 3 and register 0x04. -/
theorem C9_witness :
    (pciep_driver_file_lseek (fun _ => 5) 0x123456789ABC).1 =
      set_read_offset (fun _ => 5) 0x123456789ABC ∧
    Nat.testBit
      (reg_read (pciep_driver_file_lseek (fun _ => 5) 0x123456789ABC).1
        PCIEP_READ_BUFFER_READY) 3 =
      Nat.testBit (reg_read (fun _ => 5) PCIEP_READ_BUFFER_READY) 3 ∧
    (pciep_driver_file_lseek (fun _ => 5) 0x123456789ABC).1 0x04 =
      (fun _ => 5 : Regs) 0x04 := by
  have h := C9_lseek_refines_set_read_offset (fun _ => 5) 0x123456789ABC
  exact ⟨h.1, h.2.2.2.1 3 (by decide), h.2.2.2.2 0x04 (by decide) (by decide)⟩

theorem reg_read_lt (s : Regs) (r : Nat) : reg_read s r < 2 ^ 32 :=
  Nat.mod_lt _ (by norm_num)

theorem or_one_parity (x y : Nat) (hy : y % 2 = 1) :
    (x ||| y) % 4294967296 % 2 = 1 := by
  rw [Nat.mod_mod_of_dvd _ (by norm_num : (2 : Nat) ∣ 4294967296)]
  rw [Nat.mod_two_eq_one_iff_testBit_zero, Nat.testBit_or]
  have h := Nat.mod_two_eq_one_iff_testBit_zero.mp hy
  simp [h]

theorem and_even_parity (x y : Nat) (hy : y % 2 = 0) :
    (x &&& y) % 4294967296 % 2 = 0 := by
  rw [Nat.mod_mod_of_dvd _ (by norm_num : (2 : Nat) ∣ 4294967296)]
  have hy2 : Nat.testBit y 0 = false := by
    rw [Nat.testBit_zero, hy]
    simp
  have hxy : Nat.testBit (x &&& y) 0 = false := by
    rw [Nat.testBit_and, hy2]
    simp
  rw [Nat.testBit_zero] at hxy
  have h3 : (x &&& y) % 2 ≠ 1 := by simpa using hxy
  omega

/-- C4: in every submit-outbound-transfer (read) and
submit-inbound-transfer (write) execution that reaches the announce
step, the write that sets the direction's ready bit occurs only after
both the device-visible buffer address and the byte count have been
written to that direction's address and size registers; the trace of
such an execution does contain a ready-setting write. -/
theorem C4_announce_order (s : Regs) (count pa cr : Nat) (h : count ≠ 0) :
    (announceOrderOk PCIEP_READ_BUFFER_READY PCIEP_READ_BUFFER_ADDR
        PCIEP_READ_BUFFER_SIZE
        (pciep_driver_file_read s count true pa cr).1.trace false false = true ∧
      (pciep_driver_file_read s count true pa cr).1.trace.any
        (fun e => setsReady e PCIEP_READ_BUFFER_READY) = true) ∧
    (announceOrderOk PCIEP_WRITE_BUFFER_READY PCIEP_WRITE_BUFFER_ADDR
        PCIEP_WRITE_BUFFER_SIZE
        (pciep_driver_file_write s count true pa cr).1.trace false false = true ∧
      (cr = 0 →
        (pciep_driver_file_write s count true pa cr).1.trace.any
          (fun e => setsReady e PCIEP_WRITE_BUFFER_READY) = true)) := by
  refine ⟨⟨?_, ?_⟩, ?_, ?_⟩
  · rw [read_trace_eq s count pa cr h]
    simp [announceOrderOk, setsReady, writesReg, PCIEP_READ_BUFFER_READY,
      PCIEP_READ_BUFFER_ADDR, PCIEP_READ_BUFFER_SIZE]
  · rw [read_trace_eq s count pa cr h]
    simp [setsReady, PCIEP_READ_BUFFER_READY, PCIEP_READ_BUFFER_ADDR,
      PCIEP_READ_BUFFER_SIZE]
    exact or_one_parity _ _ (by decide)
  · by_cases hcr : cr = 0
    · subst hcr
      rw [write_trace_eq_ok s count pa h]
      simp [announceOrderOk, setsReady, writesReg, PCIEP_WRITE_BUFFER_READY,
        PCIEP_WRITE_BUFFER_ADDR, PCIEP_WRITE_BUFFER_SIZE]
    · rw [write_trace_eq_copyfail s count pa cr h hcr]
      simp [announceOrderOk, setsReady, writesReg]
  · intro hcr
    subst hcr
    rw [write_trace_eq_ok s count pa h]
    simp [setsReady, PCIEP_WRITE_BUFFER_READY, PCIEP_WRITE_BUFFER_ADDR,
      PCIEP_WRITE_BUFFER_SIZE]
    exact or_one_parity _ _ (by decide)

/-- C4 witness: the ordering theorem applied at the zero register state,
byte count 4096, device address 0x1000 and successful copies. -/
theorem C4_witness :
    announceOrderOk PCIEP_READ_BUFFER_READY PCIEP_READ_BUFFER_ADDR
      PCIEP_READ_BUFFER_SIZE
      (pciep_driver_file_read (fun _ => 0) 4096 true 0x1000 0).1.trace
      false false = true ∧
    (pciep_driver_file_read (fun _ => 0) 4096 true 0x1000 0).1.trace.any
      (fun e => setsReady e PCIEP_READ_BUFFER_READY) = true ∧
    announceOrderOk PCIEP_WRITE_BUFFER_READY PCIEP_WRITE_BUFFER_ADDR
      PCIEP_WRITE_BUFFER_SIZE
      (pciep_driver_file_write (fun _ => 0) 4096 true 0x1000 0).1.trace
      false false = true ∧
    (pciep_driver_file_write (fun _ => 0) 4096 true 0x1000 0).1.trace.any
      (fun e => setsReady e PCIEP_WRITE_BUFFER_READY) = true := by
  have h := C4_announce_order (fun _ => 0) 4096 0x1000 0 (by decide)
  exact ⟨h.1.1, h.1.2, h.2.1, h.2.2 rfl⟩

/-- C5: in each completion interrupt handler invocation, a write that
clears bit 0 of the direction's ready register precedes every
completion signal in the trace, a completion signal does occur, and in
the handler's final register state the ready bit reads as clear, so a
woken waiter observes the ready bit already clear. -/
theorem C5_clear_before_signal (s : Regs) :
    (signalAfterClear PCIEP_READ_BUFFER_READY
        (xilinx_pciep_read_irq_handler s).trace false = true ∧
      (xilinx_pciep_read_irq_handler s).trace.any isSignal = true ∧
      Nat.testBit (reg_read (xilinx_pciep_read_irq_handler s).regs
        PCIEP_READ_BUFFER_READY) 0 = false) ∧
    (signalAfterClear PCIEP_WRITE_BUFFER_READY
        (xilinx_pciep_write_irq_handler s).trace false = true ∧
      (xilinx_pciep_write_irq_handler s).trace.any isSignal = true ∧
      Nat.testBit (reg_read (xilinx_pciep_write_irq_handler s).regs
        PCIEP_WRITE_BUFFER_READY) 0 = false) := by
  refine ⟨⟨?_, ?_, ?_⟩, ?_, ?_, ?_⟩
  · rw [read_irq_trace_eq]
    simp [signalAfterClear, isSignal, clearsReady]
    exact and_even_parity _ _ (by decide)
  · rw [read_irq_trace_eq]
    simp [isSignal]
  · rw [read_irq_regs_eq, reg_read_write_same]
    exact clear_val_bit0 _
  · rw [write_irq_trace_eq]
    simp [signalAfterClear, isSignal, clearsReady]
    exact and_even_parity _ _ (by decide)
  · rw [write_irq_trace_eq]
    simp [isSignal]
  · rw [write_irq_regs_eq, reg_read_write_same]
    exact clear_val_bit0 _

/-- C6: on every exit path of a submit-transfer call whose buffer
allocation succeeded - normal completion, or for the write path a
failed copy from user space - the direction's buffer release event
occurs exactly once in the trace. -/
theorem C6_buffer_freed_once (s : Regs) (count pa cr : Nat) (h : count ≠ 0) :
    (pciep_driver_file_read s count true pa cr).1.trace.countP
      (fun e => isFreeBuf e false) = 1 ∧
    (pciep_driver_file_write s count true pa cr).1.trace.countP
      (fun e => isFreeBuf e true) = 1 := by
  constructor
  · rw [read_trace_eq s count pa cr h]
    simp [isFreeBuf]
  · by_cases hcr : cr = 0
    · subst hcr
      rw [write_trace_eq_ok s count pa h]
      simp [isFreeBuf]
    · rw [write_trace_eq_copyfail s count pa cr h hcr]
      simp [isFreeBuf]

/-- C6 witness: the release theorem applied at byte count 4096, both
for a successful copy and for a failed copy from user space. -/
theorem C6_witness :
    (pciep_driver_file_read (fun _ => 0) 4096 true 0x1000 0).1.trace.countP
      (fun e => isFreeBuf e false) = 1 ∧
    (pciep_driver_file_write (fun _ => 0) 4096 true 0x1000 7).1.trace.countP
      (fun e => isFreeBuf e true) = 1 := by
  have h1 := C6_buffer_freed_once (fun _ => 0) 4096 0x1000 0 (by decide)
  have h2 := C6_buffer_freed_once (fun _ => 0) 4096 0x1000 7 (by decide)
  exact ⟨h1.1, h2.2⟩

/-- C7: a submit-transfer call with byte count zero (the only size_t
value satisfying count <= 0) returns -EINVAL with an empty trace and
the register state unchanged, for both directions and regardless of
allocator behaviour; and when the byte count is positive but the buffer
allocation fails, the call returns -ENOMEM having performed no register
access and leaving the register state unchanged. -/
theorem C7_error_paths (s : Regs) (count pa cr : Nat) (allocOk : Bool) :
    pciep_driver_file_read s 0 allocOk pa cr = (⟨s, []⟩, -EINVAL) ∧
    pciep_driver_file_write s 0 allocOk pa cr = (⟨s, []⟩, -EINVAL) ∧
    (count ≠ 0 →
      (pciep_driver_file_read s count false pa cr).1.regs = s ∧
      (pciep_driver_file_read s count false pa cr).1.trace.countP isRegEv = 0 ∧
      (pciep_driver_file_read s count false pa cr).2 = -ENOMEM) ∧
    (count ≠ 0 →
      (pciep_driver_file_write s count false pa cr).1.regs = s ∧
      (pciep_driver_file_write s count false pa cr).1.trace.countP isRegEv = 0 ∧
      (pciep_driver_file_write s count false pa cr).2 = -ENOMEM) := by
  refine ⟨rfl, rfl, fun hc => ?_, fun hc => ?_⟩
  · refine ⟨?_, ?_, ?_⟩ <;> simp [pciep_driver_file_read, hc, emit, isRegEv]
  · refine ⟨?_, ?_, ?_⟩ <;> simp [pciep_driver_file_write, hc, emit, isRegEv]

/-- C7 witness: the error-path theorem applied at the zero register
state with byte count 4096 for the allocation-failure half. -/
theorem C7_witness :
    pciep_driver_file_read (fun _ => 0) 0 true 0x1000 0 =
      (⟨fun _ => 0, []⟩, -EINVAL) ∧
    (pciep_driver_file_read (fun _ => 0) 4096 false 0x1000 0).1.trace.countP
      isRegEv = 0 ∧
    (pciep_driver_file_write (fun _ => 0) 4096 false 0x1000 0).2 = -ENOMEM := by
  have h := C7_error_paths (fun _ => 0) 4096 0x1000 0 true
  exact ⟨h.1, (h.2.2.1 (by decide)).2.1, (h.2.2.2 (by decide)).2.2⟩

/-- C10: each completion interrupt handler touches only bit 0 of its
direction's ready register: every register other than that ready
register is unchanged in the handler's final state, and every bit of
the ready register other than bit 0 reads unchanged. -/
theorem C10_irq_frame (s : Regs) (r i : Nat) :
    (r ≠ PCIEP_READ_BUFFER_READY →
      (xilinx_pciep_read_irq_handler s).regs r = s r) ∧
    (i ≠ 0 →
      Nat.testBit (reg_read (xilinx_pciep_read_irq_handler s).regs
          PCIEP_READ_BUFFER_READY) i =
        Nat.testBit (reg_read s PCIEP_READ_BUFFER_READY) i) ∧
    (r ≠ PCIEP_WRITE_BUFFER_READY →
      (xilinx_pciep_write_irq_handler s).regs r = s r) ∧
    (i ≠ 0 →
      Nat.testBit (reg_read (xilinx_pciep_write_irq_handler s).regs
          PCIEP_WRITE_BUFFER_READY) i =
        Nat.testBit (reg_read s PCIEP_WRITE_BUFFER_READY) i) := by
  refine ⟨fun hr => ?_, fun hi => ?_, fun hr => ?_, fun hi => ?_⟩
  · rw [read_irq_regs_eq, reg_write_ne_apply _ _ _ _ hr]
  · rw [read_irq_regs_eq, reg_read_write_same,
      Nat.mod_eq_of_lt (lt_of_le_of_lt Nat.and_le_left (reg_read_lt s _))]
    exact clear_keeps_other_bits _ i hi (reg_read_lt s _)
  · rw [write_irq_regs_eq, reg_write_ne_apply _ _ _ _ hr]
  · rw [write_irq_regs_eq, reg_read_write_same,
      Nat.mod_eq_of_lt (lt_of_le_of_lt Nat.and_le_left (reg_read_lt s _))]
    exact clear_keeps_other_bits _ i hi (reg_read_lt s _)

/-- C10 witness: the frame theorem applied at the register state that
stores 3 everywhere, at register 0x04 and bit index 16. -/
theorem C10_witness :
    (xilinx_pciep_read_irq_handler (fun _ => 3)).regs 0x04 =
      (fun _ => 3 : Regs) 0x04 ∧
    Nat.testBit (reg_read (xilinx_pciep_read_irq_handler (fun _ => 3)).regs
        PCIEP_READ_BUFFER_READY) 16 =
      Nat.testBit (reg_read (fun _ => 3) PCIEP_READ_BUFFER_READY) 16 ∧
    (xilinx_pciep_write_irq_handler (fun _ => 3)).regs 0x04 =
      (fun _ => 3 : Regs) 0x04 ∧
    Nat.testBit (reg_read (xilinx_pciep_write_irq_handler (fun _ => 3)).regs
        PCIEP_WRITE_BUFFER_READY) 16 =
      Nat.testBit (reg_read (fun _ => 3) PCIEP_WRITE_BUFFER_READY) 16 := by
  have h := C10_irq_frame (fun _ => 3) 0x04 16
  exact ⟨h.1 (by decide), h.2.1 (by decide), h.2.2.1 (by decide),
    h.2.2.2 (by decide)⟩
